import Mathlib

/-!
Shallow embedding of `nplab/instrument/apt_virtual_com_port.py` (class `APT_VCP`):
the APT virtual-com-port protocol engine.  Byte streams are `List Nat` (each
element a byte value); the serial transport's `ser.read(n)` returns up to `n`
bytes, modelled by `List.take`/`List.drop`.  Python exceptions are modelled by
`Except Err` / `Option`.
-/

set_option linter.unusedVariables false

deriving instance DecidableEq for Except

namespace APT_VCP

/-- Python runtime exceptions that the engine's code can raise. -/
inductive Err where
  | structError : Err
  | keyError : Err
  | typeError : Err
  | indexError : Err
  | notImplemented : Err
  deriving DecidableEq

/-- A decoded message, as built by `APT_VCP.read`: either the short form
(`struct.unpack('<HBBBB', header)`) or the long form with trailing data
(`struct.unpack('<HHBB', header)` plus `ser.read(length)` payload). -/
inductive Message where
  | short (id param1 param2 dest source : Nat) : Message
  | long (id length dest source : Nat) (data : List Nat) : Message
  deriving DecidableEq

/-- The observable outcome of one `APT_VCP.read` call: the value returned to
the caller (Python returns `None` when it falls off the end of the surprise
branch), the bytes left unconsumed in the input stream, the surprise messages
passed to `self.verbose`, and the messages passed to `self.update_status`. -/
structure ReadOut where
  result : Option Message
  rest : List Nat
  verboseLog : List Message
  statusCalls : List Message
  deriving DecidableEq

/-- Per-connection configuration: `self.source`, `self.destination`, the
settable `surprise_message_codes['Status update id']`, and the device-specific
`update_status` handler (the base class's handler raises, modelled by
`fun _ => some Err.notImplemented`; a subclass returns `none` on success). -/
structure EngineCfg where
  source : Nat
  destination : Nat
  statusUpdateId : Option Nat
  update_status : Message → Option Err

/-- The base engine: `source = 0x01`, a set destination, no status-update id
(`'Status update id' : None`), and the abstract `update_status` that raises
`NotImplementedError`. -/
def baseCfg : EngineCfg :=
  { source := 0x01, destination := 0x50, statusUpdateId := none,
    update_status := fun _ => some Err.notImplemented }

/-- Model of `APT_VCP.read` (lines 86-128).  Reads a 6-byte header (fewer than 6 bytes
makes `struct.unpack` raise `struct.error`); if the message id is one of the
surprise codes the frame is consumed (logged via `verbose` or handed to
`update_status` when the last logged command matches the status-update id) and
`self.read()` recurses with its result discarded, so the branch returns `None`;
otherwise the frame is returned: long form when the configured instance
attribute `self.source | 0x80` equals the frame's `dest` byte (line 117),
short form otherwise. -/
def read (cfg : EngineCfg) (command_log : List Nat) : List Nat → Except Err ReadOut
  | b0 :: b1 :: b2 :: b3 :: b4 :: b5 :: rest =>
    let msgid := b0 + 256 * b1
    let len := b2 + 256 * b3
    if msgid = 0x0080 ∨ msgid = 0x0081 ∨ some msgid = cfg.statusUpdateId then
      if msgid = 0x0080 then
        match read cfg command_log rest with
        | .error e => .error e
        | .ok o =>
          .ok { result := none, rest := o.rest,
                verboseLog := Message.short msgid b2 b3 b4 b5 :: o.verboseLog,
                statusCalls := o.statusCalls }
      else if msgid = 0x0081 then
        match read cfg command_log (rest.drop len) with
        | .error e => .error e
        | .ok o =>
          .ok { result := none, rest := o.rest,
                verboseLog := Message.long msgid len b4 b5 (rest.take len) :: o.verboseLog,
                statusCalls := o.statusCalls }
      else
        match command_log.getLast? with
        | none => .error Err.indexError
        | some lastCmd =>
          if some lastCmd = cfg.statusUpdateId then
            match cfg.update_status (Message.long msgid len b4 b5 (rest.take len)) with
            | some e => .error e
            | none =>
              match read cfg command_log (rest.drop len) with
              | .error e => .error e
              | .ok o =>
                .ok { result := none, rest := o.rest, verboseLog := o.verboseLog,
                      statusCalls := Message.long msgid len b4 b5 (rest.take len) :: o.statusCalls }
          else
            .ok { result := none, rest := rest, verboseLog := [], statusCalls := [] }
    else
      if cfg.source ||| 0x80 = b4 then
        .ok { result := some (Message.long msgid len b4 b5 (rest.take len)),
              rest := rest.drop len, verboseLog := [], statusCalls := [] }
      else
        .ok { result := some (Message.short msgid b2 b3 b4 b5),
              rest := rest, verboseLog := [], statusCalls := [] }
  | _ => .error Err.structError
termination_by s => s.length
decreasing_by
  all_goals simp [List.length_drop]
  all_goals omega

/-- Model of `struct.pack('<HBBBB', message_id, param1, param2, dest, source)`: the
short-form frame encoder used by `APT_VCP.write` (lines 130-136).  `struct`
raises `struct.error` when a field is out of range, modelled by `none`. -/
def encode_short (message_id param1 param2 dest source : Nat) : Option (List Nat) :=
  if message_id < 65536 ∧ param1 < 256 ∧ param2 < 256 ∧ dest < 256 ∧ source < 256 then
    some [message_id % 256, message_id / 256, param1, param2, dest, source]
  else none

/-- Model of `struct.unpack('<HBBBB', header)`: the short-form layout over 6 bytes
(line 123).  Fewer or more than 6 bytes raise `struct.error` (`none`). -/
def decode_as_short (bs : List Nat) : Option (Nat × Nat × Nat × Nat × Nat) :=
  match bs with
  | [b0, b1, b2, b3, b4, b5] => some (b0 + 256 * b1, b2, b3, b4, b5)
  | _ => none

/-- Observable effect of `APT_VCP.write`: the bytes handed to `ser.write`,
or the exception raised before anything was written. -/
structure WriteEffect where
  written : List Nat
  error : Option Err
  deriving DecidableEq

/-- Model of `APT_VCP.write` (lines 130-136): pack the short frame and send it. -/
def write (cfg : EngineCfg) (message_id param1 param2 : Nat) : WriteEffect :=
  match encode_short message_id param1 param2 cfg.destination cfg.source with
  | none => { written := [], error := some Err.structError }
  | some bs => { written := bs, error := none }

/-- Observable effect of `APT_VCP.query`: the command log after the call
(the source never appends to `command_log`, so it is returned unchanged),
the bytes written, and the outcome of the final `read`. -/
structure QueryEffect where
  newLog : List Nat
  written : List Nat
  result : Except Err ReadOut

/-- Model of `APT_VCP.query` (lines 138-144): flush the input buffer (so `stream` is
the bytes that arrive after the flush), `write` the request, then `read`. -/
def query (cfg : EngineCfg) (command_log : List Nat) (message_id param1 param2 : Nat)
    (stream : List Nat) : QueryEffect :=
  let w := write cfg message_id param1 param2
  match w.error with
  | some e => { newLog := command_log, written := w.written, result := .error e }
  | none => { newLog := command_log, written := w.written,
              result := read cfg command_log stream }

/-- Append semantics of the `collections.deque(maxlen = 20)`: the semantics for the structure
constructed at line 72: appending to a full deque drops the oldest entry. -/
def dequePush (maxlen : Nat) (q : List Nat) (x : Nat) : List Nat :=
  if q.length = maxlen then q.drop 1 ++ [x] else q ++ [x]

/-- Python attribute model for `command_log`: line 72 defines it once at class
scope, and `__init__` (lines 73-84) never assigns `self.command_log`, so an
instance carries no attribute of its own (`none`). -/
structure APTInstance where
  source : Nat
  destination : Nat
  ownCommandLog : Option (List Nat)

/-- Model of `APT_VCP.__init__`: sets `source` and `destination`; `command_log` is not
assigned on the instance. -/
def mkAPTInstance (source destination : Nat) : APTInstance :=
  { source := source, destination := destination, ownCommandLog := none }

/-- Python attribute lookup for `self.command_log`: the instance attribute if
one was ever assigned, else the single class-level deque `classLog`. -/
def resolvedCommandLog (classLog : List Nat) (inst : APTInstance) : List Nat :=
  inst.ownCommandLog.getD classLog

/-- Model of `channel_number_to_identity` (line 58): `{1: 0x01, 2: 0x02, 3: 0x04,
4: 0x08}`; a missing key raises `KeyError` (`none`). -/
def channel_number_to_identity (n : Nat) : Option Nat :=
  if n = 1 then some 0x01
  else if n = 2 then some 0x02
  else if n = 3 then some 0x04
  else if n = 4 then some 0x08
  else none

/-- Model of `state_conversion` (line 59): `{True: 0x01, False: 0x02}`. -/
def state_conversion (b : Bool) : Nat :=
  if b then 0x01 else 0x02

/-- Model of `reverse_state_conversion` (line 60): `{0x01: True, 0x02: False}`; any
other wire value raises `KeyError` (`none`). -/
def reverse_state_conversion (v : Nat) : Option Bool :=
  if v = 0x01 then some true else if v = 0x02 then some false else none

/-- Model of `APT_VCP.set_channel_state` (lines 154-158): look the channel up in
`channel_number_to_identity` (a `KeyError` here happens before any transport
use), convert the boolean, then call `self.write(message=..., param_1=...,
param_2=...)` — keyword names `write` does not accept, so Python raises
`TypeError` before writing anything. -/
def set_channel_state (cfg : EngineCfg) (channel_number : Nat) (new_state : Bool) :
    WriteEffect :=
  match channel_number_to_identity channel_number with
  | none => { written := [], error := some Err.keyError }
  | some _ =>
    let _ := state_conversion new_state
    { written := [], error := some Err.typeError }

/-- Model of `APT_VCP.get_channel_state` (lines 160-164): `query(0x0211, param1 =
identity)`, then `reverse_state_conversion[message_dict['param2']]`.  When
`read` returned `None`, `None['param2']` raises `TypeError`; when it returned
the long form, the dict has no `'param2'` key, raising `KeyError`. -/
def get_channel_state (cfg : EngineCfg) (command_log : List Nat) (channel_number : Nat)
    (stream : List Nat) : Except Err Bool :=
  match channel_number_to_identity channel_number with
  | none => .error Err.keyError
  | some ident =>
    match (query cfg command_log 0x0211 ident 0x00 stream).result with
    | .error e => .error e
    | .ok o =>
      match o.result with
      | none => .error Err.typeError
      | some (Message.long _ _ _ _ _) => .error Err.keyError
      | some (Message.short _ _ p2 _ _) =>
        match reverse_state_conversion p2 with
        | none => .error Err.keyError
        | some b => .ok b

/-- Little-endian 16-bit field of `struct.unpack`. -/
def leU16 (a b : Nat) : Nat := a + 256 * b

/-- Little-endian 32-bit field of `struct.unpack`. -/
def leU32 (a b c d : Nat) : Nat := a + 256 * b + 65536 * c + 16777216 * d

/-- Model of `int(str(serialnum)[0:2])` (line 185): the leading two decimal digits of
the serial number (the whole number when it has fewer than two digits). -/
def leadingTwoDigits (n : Nat) : Nat :=
  if n < 100 then n else leadingTwoDigits (n / 10)
termination_by n
decreasing_by omega

/-- Model of `serial_num_to_device_types` (lines 61-71), the model table indexed
by the serial number's two leading decimal digits;
a missing key raises `KeyError` (`none`). -/
def serial_num_to_device_types (k : Nat) : Option (String × String) :=
  if k = 20 then some ("Legacy Single channel stepper driver", "BSC001")
  else if k = 25 then some ("Legacy single channel mini stepper driver", "BMS001")
  else if k = 30 then some ("Legacy dual channel stepper driver", "BSC002")
  else if k = 35 then some ("Legacy dual channel mini stepper driver", "BMS002")
  else if k = 40 then some ("Single channel stepper driver", "BSC101")
  else if k = 60 then some ("OptoSTDriver(mini stepper driver)", "OST001")
  else if k = 63 then some ("OptoDCDriver (mini DC servo driver)", "ODC001")
  else if k = 70 then some ("Three channel card slot stepper driver", "BSC103")
  else if k = 80 then some ("Stepper Driver T-Cube", "TST001")
  else if k = 73 then some ("Brushless DC motherboard", "BBD102/BBD103")
  else if k = 94 then some ("Brushless DC motor card", "BBD102/BBD103")
  else none

/-- The dict built at lines 181-183 from
`struct.unpack('<I8sHI48s12xHHH', message_dict['data'])`. -/
structure HardwareDict where
  serial_number : Nat
  model : List Nat
  hardware_type : Nat
  software_version : Nat
  notes : List Nat
  hardware_version : Nat
  modstate : Nat
  number_of_channels : Nat
  deriving DecidableEq

/-- Model of `struct.unpack('<I8sHI48s12xHHH', data)` (line 180): requires exactly 84
bytes (4+8+2+4+48+12+2+2+2), else `struct.error`. -/
def unpack_hw (data : List Nat) : Option HardwareDict :=
  if data.length = 84 then
    some { serial_number := leU32 data[0]! data[1]! data[2]! data[3]!,
           model := (data.drop 4).take 8,
           hardware_type := leU16 data[12]! data[13]!,
           software_version := leU32 data[14]! data[15]! data[16]! data[17]!,
           notes := (data.drop 18).take 48,
           hardware_version := leU16 data[78]! data[79]!,
           modstate := leU16 data[80]! data[81]!,
           number_of_channels := leU16 data[82]! data[83]! }
  else none

/-- Observable effect of the decode-and-cache part of `get_hardware_info`:
which of `self.serial_number`, `self.model`, `self.number_of_channels` were
assigned, and the returned dict or the exception raised. -/
structure HWInfoEffect where
  cached_serial_number : Option Nat
  cached_model : Option (String × String)
  cached_number_of_channels : Option Nat
  result : Except Err HardwareDict
  deriving DecidableEq

/-- Lines 180-187 of `APT_VCP.get_hardware_info`, applied to the response
payload `message_dict['data']`: unpack the fixed layout, cache
`self.serial_number` (line 184), then look the serial number's two leading digits up in
`serial_num_to_device_types` (line 185) — a missing table key raises `KeyError`
there, after the serial number was cached but before `self.model`,
`self.number_of_channels` or the `return`. -/
def get_hardware_info_decode (data : List Nat) : HWInfoEffect :=
  match unpack_hw data with
  | none => { cached_serial_number := none, cached_model := none,
              cached_number_of_channels := none, result := .error Err.structError }
  | some d =>
    match serial_num_to_device_types (leadingTwoDigits d.serial_number) with
    | none => { cached_serial_number := some d.serial_number, cached_model := none,
                cached_number_of_channels := none, result := .error Err.keyError }
    | some m => { cached_serial_number := some d.serial_number, cached_model := some m,
                  cached_number_of_channels := some d.number_of_channels,
                  result := .ok d }

/-- The unsolicited short frame with id `MGMSG_HW_RESPONSE = 0x0080`. -/
def unsolicFrame : List Nat := [0x80, 0x00, 0x00, 0x00, 0x00, 0x00]

/-- A final short response frame: id `0x0211`, `param1 = 0x01`,
`param2 = 0x02`, `dest = 0x22`, `source = 0x01` (the configured
`self.source | 0x80 = 0x81` differs from `dest`, so line 117 picks the
short form). -/
def finalFrame : List Nat := [0x11, 0x02, 0x01, 0x02, 0x22, 0x01]

/-- A device that sends `n` unsolicited `0x0080` frames before the addressed
response. -/
def flood : Nat → List Nat
  | 0 => finalFrame
  | n + 1 => unsolicFrame ++ flood n

/-- The byte stream of the spec's drain test: a short `0x0080` frame (bytes
0-5), a long `0x0081` frame with `length = 5` (bytes 6-11) and its 5 payload
bytes (12-16), then the addressed short `0x0211` response with `param2 = 0x02`
(bytes 17-22, equal to `finalFrame`). -/
def c1Stream : List Nat :=
  [0x80, 0x00, 0xAA, 0xBB, 0x22, 0x01,
   0x81, 0x00, 0x05, 0x00, 0x22, 0x01, 1, 2, 3, 4, 5,
   0x11, 0x02, 0x01, 0x02, 0x22, 0x01]

/-- A subclassed engine whose device-specific status-update id is `0x0464`. -/
def statusCfg : EngineCfg :=
  { baseCfg with statusUpdateId := some 0x0464 }

/-- An 84-byte hardware-info payload whose serial number is 990000 — leading
digits 99, which is not a key of `serial_num_to_device_types`. -/
def c9Payload : List Nat :=
  [48, 27, 15, 0,
   0, 0, 0, 0, 0, 0, 0, 0, 0, 0,
   0, 0, 0, 0, 0, 0, 0, 0, 0, 0,
   0, 0, 0, 0, 0, 0, 0, 0, 0, 0,
   0, 0, 0, 0, 0, 0, 0, 0, 0, 0,
   0, 0, 0, 0, 0, 0, 0, 0, 0, 0,
   0, 0, 0, 0, 0, 0, 0, 0, 0, 0,
   0, 0, 0, 0, 0, 0, 0, 0, 0, 0,
   0, 0, 0, 0, 0, 0, 0, 0, 0, 0]

/-- The decoded form of `c9Payload`. -/
def c9Dict : HardwareDict :=
  { serial_number := 990000, model := List.replicate 8 0,
    hardware_type := 0, software_version := 0,
    notes := List.replicate 48 0, hardware_version := 0,
    modstate := 0, number_of_channels := 0 }

/-- Unfolding `read` on an unsolicited `MGMSG_HW_RESPONSE` header: the frame
is logged, `read` recurses, and the recursion's result is replaced by `none`. -/
theorem read_step_hw_response (cfg : EngineCfg) (log : List Nat) (b2 b3 b4 b5 : Nat)
    (rest : List Nat) :
    read cfg log (0x80 :: 0x00 :: b2 :: b3 :: b4 :: b5 :: rest) =
      match read cfg log rest with
      | .error e => .error e
      | .ok o =>
        .ok { result := none, rest := o.rest,
              verboseLog := Message.short 0x80 b2 b3 b4 b5 :: o.verboseLog,
              statusCalls := o.statusCalls } := by
  rw [read.eq_def]
  simp

/-- Unfolding `read` on an unsolicited `MGMSG_HW_RICHRESPONSE` header: the
length-delimited payload is consumed, the frame is logged, `read` recurses, and
the recursion's result is replaced by `none`. -/
theorem read_step_rich_response (cfg : EngineCfg) (log : List Nat) (b2 b3 b4 b5 : Nat)
    (rest : List Nat) :
    read cfg log (0x81 :: 0x00 :: b2 :: b3 :: b4 :: b5 :: rest) =
      match read cfg log (rest.drop (b2 + 256 * b3)) with
      | .error e => .error e
      | .ok o =>
        .ok { result := none, rest := o.rest,
              verboseLog :=
                Message.long 0x81 (b2 + 256 * b3) b4 b5 (rest.take (b2 + 256 * b3)) ::
                  o.verboseLog,
              statusCalls := o.statusCalls } := by
  rw [read.eq_def]
  simp

/-- Evaluation of `read` on the concrete addressed short response frame `finalFrame`:
it
returns it decoded, for any command log. -/
theorem read_finalFrame (log : List Nat) :
    read baseCfg log [0x11, 0x02, 0x01, 0x02, 0x22, 0x01] =
      .ok { result := some (Message.short 0x0211 0x01 0x02 0x22 0x01), rest := [],
            verboseLog := [], statusCalls := [] } := by
  rw [read.eq_def]
  norm_num [baseCfg]
  simp

/-- C3: `query` (and the `write` it calls) never appends the sent message id
to `command_log`: the log after any `query` call is exactly the log before it.
This contradicts the claim that every `query` appends the sent id before
reading (line 72's own comment says the deque "stores commands sent to the
device", yet no code path ever appends to it). -/
theorem c3_query_never_appends_to_command_log
    (cfg : EngineCfg) (command_log : List Nat) (message_id param1 param2 : Nat)
    (stream : List Nat) :
    (query cfg command_log message_id param1 param2 stream).newLog = command_log := by
  unfold query
  cases h : (write cfg message_id param1 param2).error <;> simp [h]

/-- Pushing 21 distinct ids into the `deque(maxlen = 20)` leaves exactly the
last 20, in insertion order: the FIFO-eviction half of C3 does hold of the
deque constructed at line 72 (it is the append that is missing). -/
theorem dequePush_twentyone_ids :
    (List.range 21).foldl (dequePush 20) [] = (List.range 21).drop 1 := by
  decide

/-- C4: `command_log` is class-scoped, not instance-scoped.  `__init__` never
assigns a per-instance `command_log`, so attribute lookup on any two
independently constructed instances resolves to the single class-level deque:
both instances see the same list for every class-log state, and a push
performed through one instance's view is exactly a push of the shared log that
the other instance then observes. -/
theorem c4_command_log_shared_across_instances
    (s1 d1 s2 d2 : Nat) (classLog : List Nat) (x : Nat) :
    resolvedCommandLog classLog (mkAPTInstance s1 d1) =
        resolvedCommandLog classLog (mkAPTInstance s2 d2) ∧
      resolvedCommandLog (dequePush 20 classLog x) (mkAPTInstance s2 d2) =
        dequePush 20 (resolvedCommandLog classLog (mkAPTInstance s1 d1)) x := by
  constructor <;> rfl

/-- C5: decoding the 6 bytes produced by the short-form encoder under the
short-form layout reconstructs `(id, p1, p2, dest, source)` exactly, for all
in-range inputs. -/
theorem c5_short_frame_roundtrip
    (message_id param1 param2 dest source : Nat)
    (h1 : message_id < 65536) (h2 : param1 < 256) (h3 : param2 < 256)
    (h4 : dest < 256) (h5 : source < 256) :
    (encode_short message_id param1 param2 dest source).bind decode_as_short =
      some (message_id, param1, param2, dest, source) := by
  unfold encode_short
  rw [if_pos ⟨h1, h2, h3, h4, h5⟩]
  simp [decode_as_short]
  omega

/-- Witness for C5 at `(0x0211, 0x01, 0x02, 0x50, 0x01)`. -/
theorem c5_witness :
    (encode_short 0x0211 0x01 0x02 0x50 0x01).bind decode_as_short =
      some (0x0211, 0x01, 0x02, 0x50, 0x01) :=
  c5_short_frame_roundtrip 0x0211 0x01 0x02 0x50 0x01
    (by norm_num) (by norm_num) (by norm_num) (by norm_num) (by norm_num)

/-- C6: for every boolean `b`, mapping `b` through `state_conversion`
(`{True: 0x01, False: 0x02}`) and back through `reverse_state_conversion`
yields `b` again. -/
theorem c6_channel_state_roundtrip (b : Bool) :
    reverse_state_conversion (state_conversion b) = some b := by
  cases b <;> rfl

/-- C7: `set_channel_state` with channel number 5 (outside `1..4`) raises
`KeyError` from the `channel_number_to_identity` lookup — the engine's
`UnknownChannel` failure — and nothing is ever written to the transport
(`set_channel_state` performs no read at all). -/
theorem c7_unknown_channel_writes_nothing (cfg : EngineCfg) (new_state : Bool) :
    set_channel_state cfg 5 new_state =
      { written := [], error := some Err.keyError } := by
  rfl

/-- C1: on the spec's drain-test stream — a short `0x0080` frame, a long
`0x0081` frame with 5 payload bytes, then the addressed short `0x0211`
response with `param2 = 0x02` — `query(0x0211, 0x01)` does drain both
unsolicited frames (they appear in the verbose log) but returns `None`
instead of the decoded final frame: the recursive `self.read()` calls at
lines 99 and 106 discard their results, and the surprise branch falls off the
end of `read` with no `return`. -/
theorem c1_query_drops_final_response :
    query baseCfg [] 0x0211 0x01 0x00 c1Stream =
      { newLog := [], written := [0x11, 0x02, 0x01, 0x00, 0x50, 0x01],
        result := .ok { result := none, rest := [],
                        verboseLog := [Message.short 0x80 0xAA 0xBB 0x22 0x01,
                                       Message.long 0x81 0x05 0x22 0x01 [1, 2, 3, 4, 5]],
                        statusCalls := [] } } := by
  have hfin := read_finalFrame []
  have h81 : read baseCfg []
      [0x81, 0x00, 0x05, 0x00, 0x22, 0x01, 1, 2, 3, 4, 5,
       0x11, 0x02, 0x01, 0x02, 0x22, 0x01] =
      .ok { result := none, rest := [],
            verboseLog := [Message.long 0x81 0x05 0x22 0x01 [1, 2, 3, 4, 5]],
            statusCalls := [] } := by
    rw [read_step_rich_response]
    norm_num [List.drop, List.take]
    rw [hfin]
  have h80 : read baseCfg [] c1Stream =
      .ok { result := none, rest := [],
            verboseLog := [Message.short 0x80 0xAA 0xBB 0x22 0x01,
                           Message.long 0x81 0x05 0x22 0x01 [1, 2, 3, 4, 5]],
            statusCalls := [] } := by
    show read baseCfg []
        (0x80 :: 0x00 :: 0xAA :: 0xBB :: 0x22 :: 0x01 ::
          [0x81, 0x00, 0x05, 0x00, 0x22, 0x01, 1, 2, 3, 4, 5,
           0x11, 0x02, 0x01, 0x02, 0x22, 0x01]) = _
    rw [read_step_hw_response, h81]
  norm_num [query, write, encode_short, baseCfg]
  exact h80

/-- C2: the drain loop of `read` is not bounded by any drain count or
deadline: for every `n`, a device that sends `n` unsolicited `0x0080` frames
before the addressed response makes a single `read` call consume all `n` of
them (the verbose log of the one call has length exactly `n`), so no fixed
bound on unsolicited draining exists in the code. -/
theorem c2_drain_count_unbounded (n : Nat) :
    (read baseCfg [] (flood n)).map (fun o => o.verboseLog.length) = .ok n := by
  induction n with
  | zero =>
    show (read baseCfg [] finalFrame).map (fun o => o.verboseLog.length) = .ok 0
    rw [show finalFrame = [0x11, 0x02, 0x01, 0x02, 0x22, 0x01] from rfl,
        read_finalFrame]
    rfl
  | succ n ih =>
    show (read baseCfg []
        (0x80 :: 0x00 :: 0x00 :: 0x00 :: 0x00 :: 0x00 :: flood n)).map
          (fun o => o.verboseLog.length) = .ok (n + 1)
    rw [read_step_hw_response]
    cases h : read baseCfg [] (flood n) with
    | error e => rw [h] at ih; simp [Except.map] at ih
    | ok o =>
      rw [h] at ih
      simp [Except.map] at ih ⊢
      omega

/-- C8: `get_channel_state` maps the response's `param2` through
`reverse_state_conversion`: when the device answers with a single `0x0211`
frame that the classifier decodes as the short form (the frame's `dest` byte
differs from the configured `self.source | 0x80` tested at line 117),
`param2 = 0x01` yields `true`, `param2 = 0x02` yields `false`, and any other
wire value raises `KeyError` from the reverse lookup — the
`ProtocolViolation` — rather than returning a default. -/
theorem c8_get_channel_state_reverse_map
    (p1 p2 d s : Nat) (command_log : List Nat) (h : baseCfg.source ||| 0x80 ≠ d) :
    get_channel_state baseCfg command_log 1 [0x11, 0x02, p1, p2, d, s] =
      (if p2 = 0x01 then .ok true
       else if p2 = 0x02 then .ok false
       else .error Err.keyError) := by
  have hread : read baseCfg command_log [0x11, 0x02, p1, p2, d, s] =
      .ok { result := some (Message.short 0x0211 p1 p2 d s), rest := [],
            verboseLog := [], statusCalls := [] } := by
    rw [read.eq_def]
    norm_num [baseCfg]
    rw [if_neg (show ¬((1 : Nat) ||| 0x80 = d) from h)]
    simp
  have hq : (query baseCfg command_log 0x0211 0x01 0x00 [0x11, 0x02, p1, p2, d, s]).result =
      .ok { result := some (Message.short 0x0211 p1 p2 d s), rest := [],
            verboseLog := [], statusCalls := [] } := by
    norm_num [query, write, encode_short, baseCfg]
    exact hread
  unfold get_channel_state
  norm_num [channel_number_to_identity]
  rw [hq]
  by_cases h1 : p2 = 0x01
  · simp [h1, reverse_state_conversion]
  · by_cases h2 : p2 = 0x02 <;> simp [h1, h2, reverse_state_conversion]

/-- Witness for C8: with a response whose `param2` is `0x01` the call returns
`true`; with the invalid wire value `0x03` it raises the reverse-lookup
`KeyError`. -/
theorem c8_witness :
    get_channel_state baseCfg [] 1 [0x11, 0x02, 0x01, 0x01, 0x22, 0x01] = .ok true ∧
      get_channel_state baseCfg [] 1 [0x11, 0x02, 0x01, 0x03, 0x22, 0x01] =
        .error Err.keyError := by
  constructor
  · have := c8_get_channel_state_reverse_map 0x01 0x01 0x22 0x01 [] (by decide)
    simpa using this
  · have := c8_get_channel_state_reverse_map 0x01 0x03 0x22 0x01 [] (by decide)
    simpa using this

/-- Decode behaviour of `get_hardware_info` when the serial number's leading digits are absent
from the model table: the serial number is cached, then the lookup raises
`KeyError` and no dict is returned. -/
theorem hw_decode_unknown_model
    (data : List Nat) (d : HardwareDict)
    (h1 : unpack_hw data = some d)
    (h2 : serial_num_to_device_types (leadingTwoDigits d.serial_number) = none) :
    get_hardware_info_decode data =
      { cached_serial_number := some d.serial_number, cached_model := none,
        cached_number_of_channels := none, result := .error Err.keyError } := by
  simp [get_hardware_info_decode, h1, h2]

/-- Evaluating the decode of `c9Payload`: `unpack_hw` succeeds with serial
number 990000. -/
theorem unpack_hw_c9Payload : unpack_hw c9Payload = some c9Dict := by
  decide

/-- Evaluation fact: `int(str(990000)[0:2]) = 99`. -/
theorem leadingTwoDigits_990000 : leadingTwoDigits 990000 = 99 := by
  rw [leadingTwoDigits.eq_def]; norm_num
  rw [leadingTwoDigits.eq_def]; norm_num
  rw [leadingTwoDigits.eq_def]; norm_num
  rw [leadingTwoDigits.eq_def]; norm_num
  rw [leadingTwoDigits.eq_def]; norm_num

/-- C9 counterexample: on the concrete 84-byte hardware-info payload whose
serial number is 990000 (leading digits 99, absent from the model table) the
decode does not succeed — `serial_num_to_device_types[99]` raises `KeyError`
and no decoded struct is returned. -/
theorem c9_counterexample_unknown_model_crashes :
    (get_hardware_info_decode c9Payload).result = .error Err.keyError := by
  have h2 : serial_num_to_device_types (leadingTwoDigits c9Dict.serial_number) = none := by
    show serial_num_to_device_types (leadingTwoDigits 990000) = none
    rw [leadingTwoDigits_990000]
    decide
  rw [hw_decode_unknown_model c9Payload c9Dict unpack_hw_c9Payload h2]

/-- C9 amended: for every 84-byte payload whose serial number's leading two
decimal digits are not a key of the model table, `get_hardware_info` caches
`self.serial_number` and then raises `KeyError` from the model lookup; the
decoded dict is not returned. -/
theorem c9_unknown_model_raises_keyerror
    (data : List Nat) (d : HardwareDict)
    (h1 : unpack_hw data = some d)
    (h2 : serial_num_to_device_types (leadingTwoDigits d.serial_number) = none) :
    get_hardware_info_decode data =
      { cached_serial_number := some d.serial_number, cached_model := none,
        cached_number_of_channels := none, result := .error Err.keyError } :=
  hw_decode_unknown_model data d h1 h2

/-- Witness for C9's amended claim at the concrete payload `c9Payload`. -/
theorem c9_witness :
    get_hardware_info_decode c9Payload =
      { cached_serial_number := some c9Dict.serial_number, cached_model := none,
        cached_number_of_channels := none, result := .error Err.keyError } := by
  have h2 : serial_num_to_device_types (leadingTwoDigits c9Dict.serial_number) = none := by
    show serial_num_to_device_types (leadingTwoDigits 990000) = none
    rw [leadingTwoDigits_990000]
    decide
  exact c9_unknown_model_raises_keyerror c9Payload c9Dict unpack_hw_c9Payload h2

/-- Witness for C2 at `n = 3`: one `read` call drains three unsolicited
frames. -/
theorem c2_witness :
    (read baseCfg [] (flood 3)).map (fun o => o.verboseLog.length) = .ok 3 :=
  c2_drain_count_unbounded 3

/-- Witness for C3 at a concrete `query(0x0005)` call on a fresh connection:
the command log stays empty. -/
theorem c3_witness :
    (query baseCfg [] 0x0005 0x00 0x00 []).newLog = [] :=
  c3_query_never_appends_to_command_log baseCfg [] 0x0005 0x00 0x00 []

/-- Witness for C4 with two concrete instances (destinations `0x21`, `0x22`)
and a push of `0x0005` into the shared class-level log. -/
theorem c4_witness :
    resolvedCommandLog [] (mkAPTInstance 0x01 0x21) =
        resolvedCommandLog [] (mkAPTInstance 0x01 0x22) ∧
      resolvedCommandLog (dequePush 20 [] 0x0005) (mkAPTInstance 0x01 0x22) =
        dequePush 20 (resolvedCommandLog [] (mkAPTInstance 0x01 0x21)) 0x0005 :=
  c4_command_log_shared_across_instances 0x01 0x21 0x01 0x22 [] 0x0005

/-- Witness for C6 at `b = true`. -/
theorem c6_witness :
    reverse_state_conversion (state_conversion true) = some true :=
  c6_channel_state_roundtrip true

/-- Witness for C7 on the base engine with `new_state = true`. -/
theorem c7_witness :
    set_channel_state baseCfg 5 true =
      { written := [], error := some Err.keyError } :=
  c7_unknown_channel_writes_nothing baseCfg true

/-- C10: when the configured status-update id is `s` but the last entry of a
non-empty command log differs from `s`, a frame whose header id is `s` is
swallowed: `read` consumes exactly the 6 header bytes and returns `None` —
the frame is neither handed to `update_status` nor returned as an addressed
or short response. -/
theorem c10_stale_status_frame_swallowed
    (cfg : EngineCfg) (command_log rest : List Nat) (s b2 b3 b4 b5 lastCmd : Nat)
    (hid : cfg.statusUpdateId = some s) (hlt : s < 65536)
    (h80 : s ≠ 0x0080) (h81 : s ≠ 0x0081)
    (hlast : command_log.getLast? = some lastCmd) (hne : lastCmd ≠ s) :
    read cfg command_log (s % 256 :: s / 256 :: b2 :: b3 :: b4 :: b5 :: rest) =
      .ok { result := none, rest := rest, verboseLog := [], statusCalls := [] } := by
  have hm : s % 256 + 256 * (s / 256) = s := by omega
  rw [read.eq_def]
  simp [hm, hid, hlast, h80, h81, hne]

/-- Witness for C10: status-update id `0x0464`, command log `[0x0005]`, an
incoming `0x0464` header — the 6 bytes are consumed and nothing is returned. -/
theorem c10_witness :
    read statusCfg [0x0005] [0x64, 0x04, 0x00, 0x00, 0x22, 0x01] =
      .ok { result := none, rest := [], verboseLog := [], statusCalls := [] } := by
  have := c10_stale_status_frame_swallowed statusCfg [0x0005] [] 0x0464
    0x00 0x00 0x22 0x01 0x0005 rfl (by norm_num) (by norm_num) (by norm_num)
    rfl (by norm_num)
  simpa using this

end APT_VCP

